import Mathlib

/-!
Shallow embedding of the glm-vision service layer
(src/services/file_service.py, src/config/settings.py, src/types/errors.py).

Filesystem and network are modelled as explicit parameters
(`String → FsEntry`, `String → HttpOutcome`); Python exceptions become
`Except` values over an error inductive mirroring src/types/errors.py,
with the built-in ValueError kept distinct.  Byte strings are
`List Nat` with every element `< 256`.
-/

namespace GlmVision

/-- ASCII uppercase or lowercase letter (Python str.isascii() and str.isalpha()
for the characters that can begin a URL scheme). -/
def isAsciiAlpha (c : Char) : Bool :=
  (65 ≤ c.toNat && c.toNat ≤ 90) || (97 ≤ c.toNat && c.toNat ≤ 122)

/-- ASCII decimal digit. -/
def isAsciiDigit (c : Char) : Bool :=
  48 ≤ c.toNat && c.toNat ≤ 57

/-- Modelled from CPython urllib.parse scheme_chars:
letters, digits and the three punctuation characters. -/
def isSchemeChar (c : Char) : Bool :=
  isAsciiAlpha c || isAsciiDigit c || c == '+' || c == '-' || c == '.'

/-- Modelled from CPython urllib.parse: tab, CR and LF are removed anywhere
in the URL before parsing. -/
def removeTabCrLf (cs : List Char) : List Char :=
  cs.filter (fun c => !(c == '\t' || c == '\r' || c == '\n'))

/-- C0 control characters and space (code points up to 0x20). -/
def isC0OrSpace (c : Char) : Bool :=
  c.toNat ≤ 32

/-- Modelled from CPython urllib.parse: leading and trailing C0 controls and
spaces are stripped before parsing. -/
def stripC0Space (cs : List Char) : List Char :=
  ((cs.dropWhile isC0OrSpace).reverse.dropWhile isC0OrSpace).reverse

/-- Split a character list at its first colon: the part before and after. -/
def splitAtColon : List Char → Option (List Char × List Char)
  | [] => none
  | c :: cs =>
    if c == ':' then some ([], cs)
    else
      match splitAtColon cs with
      | none => none
      | some (pre, post) => some (c :: pre, post)

/-- Modelled from CPython urllib.parse.urlsplit: a scheme is recognised when a
colon occurs at a positive index, the first character is an ASCII letter, and
every character before the colon is a scheme character; the scheme is
lower-cased and removed.  Otherwise the scheme is empty and the URL is kept. -/
def schemeSplit (cs : List Char) : List Char × List Char :=
  match splitAtColon cs with
  | none => ([], cs)
  | some (pre, post) =>
    match pre with
    | [] => ([], cs)
    | c0 :: _ =>
      if isAsciiAlpha c0 && pre.all isSchemeChar then
        (pre.map Char.toLower, post)
      else
        ([], cs)

/-- A character terminating the netloc component. -/
def isNetlocEnd (c : Char) : Bool :=
  c == '/' || c == '?' || c == '#'

/-- Modelled from CPython urllib.parse: when the remainder (after scheme
removal) starts with `//`, the netloc is everything up to the next
`/`, `?` or `#`; otherwise it is empty. -/
def netlocSplit (cs : List Char) : List Char :=
  match cs with
  | '/' :: '/' :: rest => rest.takeWhile (fun c => !isNetlocEnd c)
  | _ => []

/-- Modelled from CPython urllib.parse.urlsplit: a netloc containing one of
`[`, `]` without the other raises ValueError (invalid IPv6 URL). -/
def netlocBracketsOk (nl : List Char) : Bool :=
  !((nl.contains '[' && !nl.contains ']') || (nl.contains ']' && !nl.contains '['))

/-- Modelled from CPython urllib.parse.urlparse, restricted to the scheme and
netloc components that is_url inspects.  `none` stands for urlparse raising
ValueError (unbalanced IPv6 brackets). -/
def urlparse (url : String) : Option (String × String) :=
  let cs := stripC0Space (removeTabCrLf url.toList)
  let (scheme, rest) := schemeSplit cs
  let netloc := netlocSplit rest
  if netlocBracketsOk netloc then some (String.mk scheme, String.mk netloc)
  else none

/-- Embeds FileService.is_url.  The Python body returns the truthiness of
`result.scheme in ('http', 'https') and result.netloc` (the `and` yields the
netloc string, consumed in boolean context at every call site), and any
exception from urlparse yields False. -/
def is_url (source : String) : Bool :=
  match urlparse source with
  | none => false
  | some (scheme, netloc) =>
    (scheme == "http" || scheme == "https") && netloc != ""

/-! ## Substring search (Python `needle in haystack`) -/

/-- Test whether `n` is an initial segment of `h`. -/
def leadsWith : List Char → List Char → Bool
  | [], _ => true
  | _ :: _, [] => false
  | a :: as, b :: bs => a == b && leadsWith as bs

/-- Test whether `n` occurs contiguously somewhere in `h`
(Python `n in h` on strings). -/
def occursIn (n : List Char) : List Char → Bool
  | [] => leadsWith n []
  | b :: bs => leadsWith n (b :: bs) || occursIn n bs

/-- Python `needle in haystack.lower()` for an already-lowercase needle. -/
def containsInLower (haystack needle : String) : Bool :=
  occursIn needle.toList (haystack.toList.map Char.toLower)

/-- Python str.lower for the ASCII strings occurring here. -/
def strToLower (s : String) : String :=
  String.mk (s.toList.map Char.toLower)

/-- Python str.startswith. -/
def strStartsWith (s pre : String) : Bool :=
  leadsWith pre.toList s.toList

/-! ## Configuration (src/config/settings.py) -/

/-- The PLATFORM_MODE literal values "ZAI" | "ZHIPU" | "AUTO". -/
inductive PlatformMode where
  | ZAI
  | ZHIPU
  | AUTO
deriving DecidableEq, Repr

/-- The fixed ZAI endpoint assigned in Settings post-init. -/
def zaiBaseUrl : String := "https://api.z.ai/api/paas/v4/"

/-- The fixed ZHIPU endpoint assigned in Settings post-init
(also the declared default of the base_url field). -/
def zhipuBaseUrl : String := "https://open.bigmodel.cn/api/paas/v4/"

/-- The Settings fields the claims touch (src/config/settings.py).  The
remaining fields (server name, transport, model parameters, timeouts, rate
limit, ...) play no role in any claim and are omitted; `api_key` is
Optional[str] in the source, hence `Option String` here. -/
structure Settings where
  api_key : Option String
  base_url : String
  platform_mode : PlatformMode
  log_level : String
  timeout_seconds : Nat
  rate_limit : Nat
  max_image_size_mb : Nat
  max_video_size_mb : Nat
  fastmcp_settings : List (String × String)
deriving Repr, DecidableEq

/-- Python truthiness of the optional api_key: None and the empty string are
falsy (`if not self.api_key`). -/
def apiKeyFalsy : Option String → Bool
  | none => true
  | some k => k == ""

/-- Embeds Settings._detect_platform: absent (falsy) key defaults to "ZHIPU";
otherwise a case-insensitive substring match of "zhipu" or "glm" in the key
gives "ZHIPU", anything else "ZAI". -/
def detect_platform (api_key : Option String) : PlatformMode :=
  if apiKeyFalsy api_key then .ZHIPU
  else
    match api_key with
    | none => .ZHIPU
    | some key =>
      if containsInLower key "zhipu" || containsInLower key "glm" then .ZHIPU
      else .ZAI

/-- Errors raised while loading settings: the source raises the built-in
ValueError; the typed ConfigurationError of src/types/errors.py is a distinct
constructor (never produced by the code under src/). -/
inductive LoadError where
  | valueError (msg : String)
  | configurationError (msg : String)
deriving DecidableEq, Repr

/-- Embeds Settings.__post_init__, in source order: AUTO platform detection,
base-URL override from the (resolved) platform, mandatory api_key check
(raising ValueError when falsy), FastMCP sub-settings projection.  The
numeric fastmcp values are rendered with toString, standing for the dict
values.  Loading settings is modelled as constructing the field record (the
third-party BaseSettings machinery, which reads the environment, is outside
src/) and then running this hook, as the spec describes the load sequence. -/
def post_init (s : Settings) : Except LoadError Settings :=
  let pm := if s.platform_mode = .AUTO then detect_platform s.api_key else s.platform_mode
  let burl :=
    if pm = .ZAI then zaiBaseUrl
    else if pm = .ZHIPU then zhipuBaseUrl
    else s.base_url
  if apiKeyFalsy s.api_key then
    .error (.valueError "Z_AI_API_KEY environment variable is required")
  else
    .ok { s with
          platform_mode := pm
          base_url := burl
          fastmcp_settings :=
            [("log_level", s.log_level),
             ("timeout", toString s.timeout_seconds),
             ("max_concurrent_requests", toString s.rate_limit)] }

/-- A Settings record populated with the declared field defaults
(api_key and the claim-relevant fields; base_url default is the ZHIPU URL). -/
def defaultSettings : Settings :=
  { api_key := none
    base_url := zhipuBaseUrl
    platform_mode := .AUTO
    log_level := "INFO"
    timeout_seconds := 300
    rate_limit := 50
    max_image_size_mb := 5
    max_video_size_mb := 8
    fastmcp_settings := [] }

/-! ## Error taxonomy (src/types/errors.py), restricted to the variants the
file service raises; each carries its human message. -/

inductive VisionError where
  | fileNotFound (msg : String)
  | validation (msg : String)
  | network (msg : String)
deriving DecidableEq, Repr

/-! ## Filesystem and HTTP models -/

/-- What a path resolves to on disk: absent, a non-regular entry (directory
etc., with its stat size), or a regular file with its content bytes.
Path.exists() is true for the last two, Path.is_file() only for the last. -/
inductive FsEntry where
  | absent
  | directory (st_size : Nat)
  | regular (content : List Nat)
deriving DecidableEq, Repr

/-- Path.stat().st_size of an existing entry. -/
def fileSize : FsEntry → Nat
  | .absent => 0
  | .directory st_size => st_size
  | .regular content => content.length

/-- Outcome of an httpx HEAD request: a transport-level httpx.HTTPError, or a
response with its status code and optional content-type header. -/
inductive HttpOutcome where
  | transportError (msg : String)
  | response (status : Nat) (content_type : Option String)
deriving DecidableEq, Repr

/-- httpx Response.is_success: raise_for_status() passes exactly on 2xx. -/
def statusSuccess (status : Nat) : Bool :=
  200 ≤ status && status < 300

/-! ## Path suffix (CPython pathlib) -/

/-- Index of the last '.' in a list of characters (str.rfind('.')),
none when absent. -/
def lastDotIdx : List Char → Option Nat
  | [] => none
  | c :: rest =>
    match lastDotIdx rest with
    | some i => some (i + 1)
    | none => if c == '.' then some 0 else none

/-- Split a character list on a separator character (the component split
underlying both str.split and pathlib's component parsing). -/
def splitOnChar (sep : Char) : List Char → List (List Char)
  | [] => [[]]
  | c :: cs =>
    let rest := splitOnChar sep cs
    if c == sep then [] :: rest
    else
      match rest with
      | [] => [[c]]
      | r :: rs => (c :: r) :: rs

/-- Modelled from CPython pathlib: the final path component (PurePath.name
for ordinary file names; the '.' and '..' special components play no role in
any claim). -/
def pathName (p : String) : String :=
  String.mk (((splitOnChar '/' p.toList).filter (fun comp => comp != [])).getLastD [])

/-- Modelled from CPython pathlib PurePath.suffix: the part of the name from
its last dot, provided that dot is neither the first nor the last character
of the name; otherwise the empty string. -/
def pathSuffix (p : String) : String :=
  let name := pathName p
  let cs := name.toList
  match lastDotIdx cs with
  | none => ""
  | some i =>
    if 0 < i && i < cs.length - 1 then String.mk (cs.drop i) else ""

/-! ## FileService (src/services/file_service.py) -/

/-- FileService.supported_image_formats. -/
def supported_image_formats : List String := [".png", ".jpg", ".jpeg"]

/-- FileService.supported_video_formats. -/
def supported_video_formats : List String := [".mp4", ".mov", ".avi", ".webm", ".m4v"]

/-- Embeds FileService._validate_image_file.  Checks run in source order:
existence, regular file, size, extension.  size_mb is st_size / (1024*1024):
in the Python this is float division, exact for any realisable st_size since
the divisor is a power of two, so it is modelled in ℚ.  The formatted numbers
of the too-large message are elided (no claim depends on that text). -/
def validate_image_file (S : Settings) (fs : String → FsEntry) (file_path : String) :
    Except VisionError Unit :=
  match fs file_path with
  | .absent => .error (.fileNotFound ("Image file not found: " ++ file_path))
  | .directory _ => .error (.validation ("Path is not a file: " ++ file_path))
  | .regular content =>
    let size_mb : ℚ := (content.length : ℚ) / (1024 * 1024)
    if size_mb > (S.max_image_size_mb : ℚ) then
      .error (.validation "Image file too large")
    else if !(supported_image_formats.contains (strToLower (pathSuffix file_path))) then
      .error (.validation ("Unsupported image format: " ++ pathSuffix file_path))
    else
      .ok ()

/-- Embeds FileService._validate_video_file (same shape as the image case,
with the video ceiling and the video extension set). -/
def validate_video_file (S : Settings) (fs : String → FsEntry) (file_path : String) :
    Except VisionError Unit :=
  match fs file_path with
  | .absent => .error (.fileNotFound ("Video file not found: " ++ file_path))
  | .directory _ => .error (.validation ("Path is not a file: " ++ file_path))
  | .regular content =>
    let size_mb : ℚ := (content.length : ℚ) / (1024 * 1024)
    if size_mb > (S.max_video_size_mb : ℚ) then
      .error (.validation "Video file too large")
    else if !(supported_video_formats.contains (strToLower (pathSuffix file_path))) then
      .error (.validation ("Unsupported video format: " ++ pathSuffix file_path))
    else
      .ok ()

/-- Embeds FileService._validate_image_url.  The whole body sits in one
try/except: a transport error or a raise_for_status failure is an
httpx.HTTPError caught by the first clause; the ValidationError constructed
for a wrong content type is raised inside the try block, so the blanket
`except Exception` catches it and re-raises NetworkError with str(e) (the
ValidationError message) interpolated.  The exact httpx status-error text is
elided. -/
def validate_image_url (net : String → HttpOutcome) (url : String) :
    Except VisionError Unit :=
  match net url with
  | .transportError msg =>
    .error (.network ("Cannot access image URL: " ++ msg))
  | .response status content_type_hdr =>
    if !statusSuccess status then
      .error (.network ("Cannot access image URL: status " ++ toString status))
    else
      let content_type := strToLower (content_type_hdr.getD "")
      if !strStartsWith content_type "image/" then
        .error (.network ("Network error validating image URL: "
          ++ ("URL does not point to an image: " ++ content_type)))
      else
        .ok ()

/-- Embeds FileService._validate_video_url (same structure as the image
case with the "video/" content-type check). -/
def validate_video_url (net : String → HttpOutcome) (url : String) :
    Except VisionError Unit :=
  match net url with
  | .transportError msg =>
    .error (.network ("Cannot access video URL: " ++ msg))
  | .response status content_type_hdr =>
    if !statusSuccess status then
      .error (.network ("Cannot access video URL: status " ++ toString status))
    else
      let content_type := strToLower (content_type_hdr.getD "")
      if !strStartsWith content_type "video/" then
        .error (.network ("Network error validating video URL: "
          ++ ("URL does not point to a video: " ++ content_type)))
      else
        .ok ()

/-- Embeds FileService.validate_image_source: dispatch on is_url. -/
def validate_image_source (S : Settings) (net : String → HttpOutcome)
    (fs : String → FsEntry) (image_source : String) : Except VisionError Unit :=
  if is_url image_source then validate_image_url net image_source
  else validate_image_file S fs image_source

/-- Embeds FileService.validate_video_source: dispatch on is_url. -/
def validate_video_source (S : Settings) (net : String → HttpOutcome)
    (fs : String → FsEntry) (video_source : String) : Except VisionError Unit :=
  if is_url video_source then validate_video_url net video_source
  else validate_video_file S fs video_source

/-! ## MIME lookup -/

/-- The image extension→MIME table of FileService._get_mime_type. -/
def imageMimeTypes : List (String × String) :=
  [(".png", "image/png"), (".jpg", "image/jpeg"), (".jpeg", "image/jpeg")]

/-- The video extension→MIME table of FileService._get_mime_type. -/
def videoMimeTypes : List (String × String) :=
  [(".mp4", "video/mp4"), (".avi", "video/x-msvideo"), (".mov", "video/quicktime"),
   (".webm", "video/webm"), (".m4v", "video/x-m4v")]

/-- Embeds FileService._get_mime_type: lower-case the extension, look it up in
the table selected by is_video, default image/png or video/mp4. -/
def get_mime_type (extension : String) (is_video : Bool) : String :=
  let e := strToLower extension
  if is_video then (videoMimeTypes.lookup e).getD "video/mp4"
  else (imageMimeTypes.lookup e).getD "image/png"

/-! ## Base64 (Python standard library base64) -/

/-- The standard base64 alphabet. -/
def base64Alphabet : List Char :=
  "ABCDEFGHIJKLMNOPQRSTUVWXYZabcdefghijklmnopqrstuvwxyz0123456789+/".toList

/-- The alphabet character for a 6-bit value. -/
def b64Char (n : Nat) : Char :=
  base64Alphabet.getD n '='

/-- Position of a character in a character list (length when absent). -/
def idxOfChar (c : Char) : List Char → Nat
  | [] => 0
  | a :: as => if a == c then 0 else idxOfChar c as + 1

/-- The 6-bit value of an alphabet character. -/
def b64Index (c : Char) : Nat :=
  idxOfChar c base64Alphabet

/-- Modelled from the Python standard library base64.b64encode followed by
.decode('utf-8'): bytes are grouped in threes into four alphabet characters,
a final short group is padded with '='. -/
def b64EncodeBytes : List Nat → List Char
  | [] => []
  | [b0] =>
    [b64Char (b0 / 4), b64Char (b0 % 4 * 16), '=', '=']
  | [b0, b1] =>
    [b64Char (b0 / 4), b64Char (b0 % 4 * 16 + b1 / 16), b64Char (b1 % 16 * 4), '=']
  | b0 :: b1 :: b2 :: rest =>
    b64Char (b0 / 4) :: b64Char (b0 % 4 * 16 + b1 / 16) ::
      b64Char (b1 % 16 * 4 + b2 / 64) :: b64Char (b2 % 64) :: b64EncodeBytes rest

/-- Recombination of 6-bit values into bytes (the core of base64.b64decode). -/
def b64DecodeVals : List Nat → List Nat
  | v0 :: v1 :: v2 :: v3 :: rest =>
    (v0 * 4 + v1 / 16) :: (v1 % 16 * 16 + v2 / 4) :: (v2 % 4 * 64 + v3) ::
      b64DecodeVals rest
  | [v0, v1] => [v0 * 4 + v1 / 16]
  | [v0, v1, v2] => [v0 * 4 + v1 / 16, v1 % 16 * 16 + v2 / 4]
  | _ => []

/-- Modelled from the Python standard library base64.b64decode, on well-formed
input (the output of b64encode): '=' padding marks the end of the data and is
discarded, every other character contributes its 6-bit alphabet index. -/
def b64DecodeChars (cs : List Char) : List Nat :=
  b64DecodeVals ((cs.filter (fun c => c != '=')).map b64Index)

/-! ## Encoding (FileService.encode_image_to_base64 / encode_video_to_base64) -/

/-- Embeds FileService.encode_image_to_base64: a URL source is returned
unchanged; a local source is re-validated, its bytes read and encoded into a
data URI with the MIME type resolved from the extension.  The final match arm
is unreachable (validation succeeds only on regular files); in the Python,
aiofiles.open would raise OSError there. -/
def encode_image_to_base64 (S : Settings) (fs : String → FsEntry)
    (image_source : String) : Except VisionError String :=
  if is_url image_source then
    .ok image_source
  else
    match validate_image_file S fs image_source with
    | .error e => .error e
    | .ok _ =>
      match fs image_source with
      | .regular image_data =>
        let mime_type := get_mime_type (pathSuffix image_source) false
        .ok ("data:" ++ mime_type ++ ";base64," ++ String.mk (b64EncodeBytes image_data))
      | _ => .error (.validation ("Path is not a file: " ++ image_source))

/-- Embeds FileService.encode_video_to_base64 (same shape with the video
validator and is_video mime resolution). -/
def encode_video_to_base64 (S : Settings) (fs : String → FsEntry)
    (video_source : String) : Except VisionError String :=
  if is_url video_source then
    .ok video_source
  else
    match validate_video_file S fs video_source with
    | .error e => .error e
    | .ok _ =>
      match fs video_source with
      | .regular video_data =>
        let mime_type := get_mime_type (pathSuffix video_source) true
        .ok ("data:" ++ mime_type ++ ";base64," ++ String.mk (b64EncodeBytes video_data))
      | _ => .error (.validation ("Path is not a file: " ++ video_source))

/-! ## File info (FileService.get_file_info) -/

/-- The result dict of get_file_info.  The Python builds dicts with varying
key sets; absent keys are `none` here.  `type` is the "url" / "file" tag. -/
structure FileInfo where
  source : String
  type : String
  size : Option Nat
  size_mb : Option ℚ
  content_type : Option String
  accessible : Bool
  error : Option String
  extension : Option String
deriving Repr

/-- Embeds FileService.get_file_info.  For URLs the whole HEAD probe sits in a
try/except whose handler returns an inaccessible record carrying str(e), so
transport errors and raise_for_status failures are absorbed; for local paths
an absent file gives the inaccessible "File not found" record, and any
existing entry is reported with its stat size and the MIME type resolved with
the raw (non-lower-cased) suffix's membership in the video set as is_video. -/
def get_file_info (net : String → HttpOutcome)
    (fs : String → FsEntry) (file_source : String) : FileInfo :=
  if is_url file_source then
    match net file_source with
    | .transportError msg =>
      { source := file_source, type := "url", size := none, size_mb := none
        content_type := none, accessible := false, error := some msg
        extension := none }
    | .response status content_type_hdr =>
      if statusSuccess status then
        { source := file_source, type := "url", size := none, size_mb := none
          content_type := content_type_hdr, accessible := true, error := none
          extension := none }
      else
        { source := file_source, type := "url", size := none, size_mb := none
          content_type := none, accessible := false
          error := some ("status " ++ toString status), extension := none }
  else
    match fs file_source with
    | .absent =>
      { source := file_source, type := "file", size := none, size_mb := none
        content_type := none, accessible := false, error := some "File not found"
        extension := none }
    | entry =>
      let st_size := fileSize entry
      let mime_type := get_mime_type (pathSuffix file_source)
        (supported_video_formats.contains (pathSuffix file_source))
      { source := file_source, type := "file", size := some st_size
        size_mb := some ((st_size : ℚ) / (1024 * 1024))
        content_type := some mime_type, accessible := true, error := none
        extension := some (pathSuffix file_source) }

/-! ## Helper lemmas -/

/-- The float size test of the validators, reduced to integers: st_size /
(1024*1024) exceeds the MB ceiling iff st_size exceeds the ceiling scaled to
bytes. -/
theorem size_mb_gt_iff (n m : Nat) :
    ((n : ℚ) / (1024 * 1024) > (m : ℚ)) ↔ n > m * (1024 * 1024) := by
  rw [gt_iff_lt, lt_div_iff₀ (by norm_num : (0 : ℚ) < 1024 * 1024)]
  constructor
  · intro h
    exact_mod_cast h
  · intro h
    exact_mod_cast h

/-- Decoding inverts encoding on each 6-bit value. -/
theorem b64Index_b64Char : ∀ n < 64, b64Index (b64Char n) = n := by decide

/-- No alphabet character is the padding character. -/
theorem b64Char_ne_pad : ∀ n < 64, b64Char n ≠ '=' := by decide

/-- Unfolded round-trip: stripping the padding from an encoded byte list and
mapping characters back to 6-bit values recombines to the original bytes. -/
theorem b64_decode_vals_encode :
    ∀ (B : List Nat), (∀ b ∈ B, b < 256) →
      b64DecodeVals (((b64EncodeBytes B).filter (fun c => c != '=')).map b64Index) = B
  | [] => fun _ => rfl
  | [b0] => fun h => by
    have h0 : b0 < 256 := h b0 (by simp)
    have e0 := b64Index_b64Char (b0 / 4) (by omega)
    have e1 := b64Index_b64Char (b0 % 4 * 16) (by omega)
    have n0 := b64Char_ne_pad (b0 / 4) (by omega)
    have n1 := b64Char_ne_pad (b0 % 4 * 16) (by omega)
    simp [b64EncodeBytes, List.filter_cons, bne_iff_ne, n0, n1, e0, e1, b64DecodeVals]
    omega
  | [b0, b1] => fun h => by
    have h0 : b0 < 256 := h b0 (by simp)
    have h1 : b1 < 256 := h b1 (by simp)
    have e0 := b64Index_b64Char (b0 / 4) (by omega)
    have e1 := b64Index_b64Char (b0 % 4 * 16 + b1 / 16) (by omega)
    have e2 := b64Index_b64Char (b1 % 16 * 4) (by omega)
    have n0 := b64Char_ne_pad (b0 / 4) (by omega)
    have n1 := b64Char_ne_pad (b0 % 4 * 16 + b1 / 16) (by omega)
    have n2 := b64Char_ne_pad (b1 % 16 * 4) (by omega)
    simp [b64EncodeBytes, List.filter_cons, bne_iff_ne, n0, n1, n2, e0, e1, e2,
      b64DecodeVals]
    omega
  | b0 :: b1 :: b2 :: rest => fun h => by
    have h0 : b0 < 256 := h b0 (by simp)
    have h1 : b1 < 256 := h b1 (by simp)
    have h2 : b2 < 256 := h b2 (by simp)
    have ih := b64_decode_vals_encode rest (fun b hb => h b (by simp [hb]))
    have e0 := b64Index_b64Char (b0 / 4) (by omega)
    have e1 := b64Index_b64Char (b0 % 4 * 16 + b1 / 16) (by omega)
    have e2 := b64Index_b64Char (b1 % 16 * 4 + b2 / 64) (by omega)
    have e3 := b64Index_b64Char (b2 % 64) (by omega)
    have n0 := b64Char_ne_pad (b0 / 4) (by omega)
    have n1 := b64Char_ne_pad (b0 % 4 * 16 + b1 / 16) (by omega)
    have n2 := b64Char_ne_pad (b1 % 16 * 4 + b2 / 64) (by omega)
    have n3 := b64Char_ne_pad (b2 % 64) (by omega)
    simp [b64EncodeBytes, List.filter_cons, bne_iff_ne, n0, n1, n2, n3,
      e0, e1, e2, e3, b64DecodeVals, ih]
    omega

/-- base64 decoding inverts encoding on byte lists. -/
theorem b64_decode_encode (B : List Nat) (hB : ∀ b ∈ B, b < 256) :
    b64DecodeChars (b64EncodeBytes B) = B := by
  rw [b64DecodeChars, b64_decode_vals_encode B hB]

/-- An absent path fails image validation with FileNotFoundError. -/
theorem validate_image_file_absent (S : Settings) (fs : String → FsEntry)
    (p : String) (hfs : fs p = .absent) :
    validate_image_file S fs p = .error (.fileNotFound ("Image file not found: " ++ p)) := by
  unfold validate_image_file
  rw [hfs]

/-- An existing non-regular path fails image validation with ValidationError. -/
theorem validate_image_file_dir (S : Settings) (fs : String → FsEntry)
    (p : String) (sz : Nat) (hfs : fs p = .directory sz) :
    validate_image_file S fs p = .error (.validation ("Path is not a file: " ++ p)) := by
  unfold validate_image_file
  rw [hfs]

/-- A regular file above the image byte ceiling fails with ValidationError. -/
theorem validate_image_file_too_large (S : Settings) (fs : String → FsEntry)
    (p : String) (content : List Nat) (hfs : fs p = .regular content)
    (hsize : content.length > S.max_image_size_mb * (1024 * 1024)) :
    validate_image_file S fs p = .error (.validation "Image file too large") := by
  unfold validate_image_file
  rw [hfs]
  simp only [gt_iff_lt]
  rw [if_pos]
  exact (size_mb_gt_iff content.length S.max_image_size_mb).mpr hsize

/-- A regular file within the image ceiling but with an unsupported
(case-folded) extension fails with ValidationError. -/
theorem validate_image_file_bad_ext (S : Settings) (fs : String → FsEntry)
    (p : String) (content : List Nat) (hfs : fs p = .regular content)
    (hsize : content.length ≤ S.max_image_size_mb * (1024 * 1024))
    (hext : supported_image_formats.contains (strToLower (pathSuffix p)) = false) :
    validate_image_file S fs p =
      .error (.validation ("Unsupported image format: " ++ pathSuffix p)) := by
  have hm : strToLower (pathSuffix p) ∉ supported_image_formats := by simpa using hext
  unfold validate_image_file
  rw [hfs]
  simp only [gt_iff_lt]
  rw [if_neg (by rw [← gt_iff_lt, size_mb_gt_iff]; omega)]
  simp [hm]

/-- A regular file within the image ceiling with a supported extension
passes image validation. -/
theorem validate_image_file_ok (S : Settings) (fs : String → FsEntry)
    (p : String) (content : List Nat) (hfs : fs p = .regular content)
    (hsize : content.length ≤ S.max_image_size_mb * (1024 * 1024))
    (hext : supported_image_formats.contains (strToLower (pathSuffix p)) = true) :
    validate_image_file S fs p = .ok () := by
  have hm : strToLower (pathSuffix p) ∈ supported_image_formats := by simpa using hext
  unfold validate_image_file
  rw [hfs]
  simp only [gt_iff_lt]
  rw [if_neg (by rw [← gt_iff_lt, size_mb_gt_iff]; omega)]
  simp [hm]

/-- An absent path fails video validation with FileNotFoundError. -/
theorem validate_video_file_absent (S : Settings) (fs : String → FsEntry)
    (p : String) (hfs : fs p = .absent) :
    validate_video_file S fs p = .error (.fileNotFound ("Video file not found: " ++ p)) := by
  unfold validate_video_file
  rw [hfs]

/-- An existing non-regular path fails video validation with ValidationError. -/
theorem validate_video_file_dir (S : Settings) (fs : String → FsEntry)
    (p : String) (sz : Nat) (hfs : fs p = .directory sz) :
    validate_video_file S fs p = .error (.validation ("Path is not a file: " ++ p)) := by
  unfold validate_video_file
  rw [hfs]

/-- A regular file above the video byte ceiling fails with ValidationError. -/
theorem validate_video_file_too_large (S : Settings) (fs : String → FsEntry)
    (p : String) (content : List Nat) (hfs : fs p = .regular content)
    (hsize : content.length > S.max_video_size_mb * (1024 * 1024)) :
    validate_video_file S fs p = .error (.validation "Video file too large") := by
  unfold validate_video_file
  rw [hfs]
  simp only [gt_iff_lt]
  rw [if_pos]
  exact (size_mb_gt_iff content.length S.max_video_size_mb).mpr hsize

/-- A regular file within the video ceiling but with an unsupported
(case-folded) extension fails with ValidationError. -/
theorem validate_video_file_bad_ext (S : Settings) (fs : String → FsEntry)
    (p : String) (content : List Nat) (hfs : fs p = .regular content)
    (hsize : content.length ≤ S.max_video_size_mb * (1024 * 1024))
    (hext : supported_video_formats.contains (strToLower (pathSuffix p)) = false) :
    validate_video_file S fs p =
      .error (.validation ("Unsupported video format: " ++ pathSuffix p)) := by
  have hm : strToLower (pathSuffix p) ∉ supported_video_formats := by simpa using hext
  unfold validate_video_file
  rw [hfs]
  simp only [gt_iff_lt]
  rw [if_neg (by rw [← gt_iff_lt, size_mb_gt_iff]; omega)]
  simp [hm]

/-- A regular file within the video ceiling with a supported extension
passes video validation. -/
theorem validate_video_file_ok (S : Settings) (fs : String → FsEntry)
    (p : String) (content : List Nat) (hfs : fs p = .regular content)
    (hsize : content.length ≤ S.max_video_size_mb * (1024 * 1024))
    (hext : supported_video_formats.contains (strToLower (pathSuffix p)) = true) :
    validate_video_file S fs p = .ok () := by
  have hm : strToLower (pathSuffix p) ∈ supported_video_formats := by simpa using hext
  unfold validate_video_file
  rw [hfs]
  simp only [gt_iff_lt]
  rw [if_neg (by rw [← gt_iff_lt, size_mb_gt_iff]; omega)]
  simp [hm]

/-! ## Claims -/

/-- C1: the claim says a successful HEAD whose content-type does not start
with "image/" (resp. "video/") fails with a Validation error.  The code
contradicts it: the ValidationError constructed inside the try block is caught
by the blanket `except Exception` clause and re-raised as NetworkError.  This
theorem evaluates both URL validators at the failing input — a 200 HEAD
response with content-type text/html — and shows the NetworkError that wraps
the validation message.  (The Network half of the claim, transport errors and
non-2xx statuses, does hold in the embedding.) -/
theorem claim_C1_content_type_mismatch_raises_network :
    validate_image_url (fun _ => .response 200 (some "text/html"))
        "https://example.com/page" =
      .error (.network
        ("Network error validating image URL: URL does not point to an image: text/html")) ∧
    validate_video_url (fun _ => .response 200 (some "text/html"))
        "https://example.com/page" =
      .error (.network
        ("Network error validating video URL: URL does not point to a video: text/html")) := by
  constructor <;> rfl

/-- C3: is_url is a total function; it returns true exactly when urlparse
yields a scheme in {http, https} together with a non-empty netloc (a parse
failure gives false); and the three spec examples evaluate as stated. -/
theorem claim_C3_is_url_total_iff :
    (∀ s : String, is_url s = true ↔
      ∃ scheme netloc, urlparse s = some (scheme, netloc) ∧
        (scheme = "http" ∨ scheme = "https") ∧ netloc ≠ "") ∧
    is_url "not a url" = false ∧
    is_url "https://example.com/a.png" = true ∧
    is_url "ftp://x/y" = false := by
  refine ⟨?_, by decide, by decide, by decide⟩
  intro s
  unfold is_url
  cases hu : urlparse s with
  | none => simp
  | some pr =>
    obtain ⟨scheme, netloc⟩ := pr
    simp only [Bool.and_eq_true, Bool.or_eq_true, beq_iff_eq, bne_iff_ne, ne_eq,
      Option.some.injEq, Prod.mk.injEq]
    constructor
    · rintro ⟨h1, h2⟩
      exact ⟨scheme, netloc, ⟨rfl, rfl⟩, h1, h2⟩
    · rintro ⟨s1, n1, ⟨rfl, rfl⟩, h1, h2⟩
      exact ⟨h1, h2⟩

/-- C4: for every source recognised as a URL, both encoders return the source
unchanged, for every filesystem — the result does not depend on fs, and the
encoders take no network parameter at all, so no file or network access can
influence them. -/
theorem claim_C4_url_encode_identity (S : Settings) (fs : String → FsEntry)
    (source : String) (h : is_url source = true) :
    encode_image_to_base64 S fs source = .ok source ∧
    encode_video_to_base64 S fs source = .ok source := by
  constructor <;> simp [encode_image_to_base64, encode_video_to_base64, h]

/-- C4 witness at a concrete URL and an empty filesystem. -/
theorem claim_C4_witness :
    is_url "https://example.com/a.png" = true ∧
    encode_image_to_base64 defaultSettings (fun _ => .absent)
        "https://example.com/a.png" = .ok "https://example.com/a.png" ∧
    encode_video_to_base64 defaultSettings (fun _ => .absent)
        "https://example.com/a.png" = .ok "https://example.com/a.png" := by
  have h : is_url "https://example.com/a.png" = true := by decide
  have hm := claim_C4_url_encode_identity defaultSettings (fun _ => .absent)
    "https://example.com/a.png" h
  exact ⟨h, hm.1, hm.2⟩

/-- C2: for every non-URL path, the source validators check in order:
existence (FileNotFound), regular file (Validation), size against the
per-type MB ceiling with strict greater-than (Validation), then the
case-folded extension against the per-type supported set (Validation);
otherwise they succeed.  The size condition is stated in bytes;
size_mb_gt_iff equates it with the source's size/1048576-vs-ceiling float
comparison.  The precedence of the conjuncts captures the check order. -/
theorem claim_C2_local_validation_order (S : Settings) (net : String → HttpOutcome)
    (fs : String → FsEntry) (p : String) (hurl : is_url p = false) :
    (fs p = .absent →
      validate_image_source S net fs p =
        .error (.fileNotFound ("Image file not found: " ++ p)) ∧
      validate_video_source S net fs p =
        .error (.fileNotFound ("Video file not found: " ++ p))) ∧
    (∀ sz, fs p = .directory sz →
      validate_image_source S net fs p =
        .error (.validation ("Path is not a file: " ++ p)) ∧
      validate_video_source S net fs p =
        .error (.validation ("Path is not a file: " ++ p))) ∧
    (∀ content, fs p = .regular content →
      (content.length > S.max_image_size_mb * (1024 * 1024) →
        validate_image_source S net fs p = .error (.validation "Image file too large")) ∧
      (content.length ≤ S.max_image_size_mb * (1024 * 1024) →
        supported_image_formats.contains (strToLower (pathSuffix p)) = false →
        validate_image_source S net fs p =
          .error (.validation ("Unsupported image format: " ++ pathSuffix p))) ∧
      (content.length ≤ S.max_image_size_mb * (1024 * 1024) →
        supported_image_formats.contains (strToLower (pathSuffix p)) = true →
        validate_image_source S net fs p = .ok ()) ∧
      (content.length > S.max_video_size_mb * (1024 * 1024) →
        validate_video_source S net fs p = .error (.validation "Video file too large")) ∧
      (content.length ≤ S.max_video_size_mb * (1024 * 1024) →
        supported_video_formats.contains (strToLower (pathSuffix p)) = false →
        validate_video_source S net fs p =
          .error (.validation ("Unsupported video format: " ++ pathSuffix p))) ∧
      (content.length ≤ S.max_video_size_mb * (1024 * 1024) →
        supported_video_formats.contains (strToLower (pathSuffix p)) = true →
        validate_video_source S net fs p = .ok ())) := by
  have himg : validate_image_source S net fs p = validate_image_file S fs p := by
    simp [validate_image_source, hurl]
  have hvid : validate_video_source S net fs p = validate_video_file S fs p := by
    simp [validate_video_source, hurl]
  rw [himg, hvid]
  refine ⟨fun hfs => ⟨?_, ?_⟩, fun sz hfs => ⟨?_, ?_⟩,
    fun content hfs => ⟨?_, ?_, ?_, ?_, ?_, ?_⟩⟩
  · exact validate_image_file_absent S fs p hfs
  · exact validate_video_file_absent S fs p hfs
  · exact validate_image_file_dir S fs p sz hfs
  · exact validate_video_file_dir S fs p sz hfs
  · exact fun hsz => validate_image_file_too_large S fs p content hfs hsz
  · exact fun hsz hext => validate_image_file_bad_ext S fs p content hfs hsz hext
  · exact fun hsz hext => validate_image_file_ok S fs p content hfs hsz hext
  · exact fun hsz => validate_video_file_too_large S fs p content hfs hsz
  · exact fun hsz hext => validate_video_file_bad_ext S fs p content hfs hsz hext
  · exact fun hsz hext => validate_video_file_ok S fs p content hfs hsz hext

/-- C2 witness: an everywhere-absent filesystem makes a local path fail with
FileNotFoundError. -/
theorem claim_C2_witness :
    is_url "missing.png" = false ∧
    validate_image_source defaultSettings (fun _ => .transportError "down")
        (fun _ => .absent) "missing.png" =
      .error (.fileNotFound ("Image file not found: " ++ "missing.png")) := by
  have hurl : is_url "missing.png" = false := by decide
  exact ⟨hurl,
    ((claim_C2_local_validation_order defaultSettings (fun _ => .transportError "down")
      (fun _ => .absent) "missing.png" hurl).1 rfl).1⟩

/-- C10: a regular file of exactly ceiling * 1024 * 1024 bytes passes the
strict greater-than size check, so validation succeeds when the (case-folded)
extension is supported — for both media types. -/
theorem claim_C10_exact_ceiling_passes (S : Settings) (fs : String → FsEntry)
    (p : String) (content : List Nat) (hfs : fs p = .regular content) :
    (content.length = S.max_image_size_mb * (1024 * 1024) →
      supported_image_formats.contains (strToLower (pathSuffix p)) = true →
      validate_image_file S fs p = .ok ()) ∧
    (content.length = S.max_video_size_mb * (1024 * 1024) →
      supported_video_formats.contains (strToLower (pathSuffix p)) = true →
      validate_video_file S fs p = .ok ()) := by
  constructor
  · intro hsz hext
    exact validate_image_file_ok S fs p content hfs (le_of_eq hsz) hext
  · intro hsz hext
    exact validate_video_file_ok S fs p content hfs (le_of_eq hsz) hext

/-- C10 witness: a 5 MiB file under the default 5 MB image ceiling. -/
theorem claim_C10_witness :
    (List.replicate (5 * (1024 * 1024)) (0 : Nat)).length =
      defaultSettings.max_image_size_mb * (1024 * 1024) ∧
    validate_image_file defaultSettings
      (fun _ => .regular (List.replicate (5 * (1024 * 1024)) (0 : Nat))) "pic.png" =
      .ok () := by
  have hlen : (List.replicate (5 * (1024 * 1024)) (0 : Nat)).length =
      defaultSettings.max_image_size_mb * (1024 * 1024) := by
    rw [List.length_replicate]
    rfl
  have hext : supported_image_formats.contains (strToLower (pathSuffix "pic.png")) = true := by
    decide
  exact ⟨hlen,
    (claim_C10_exact_ceiling_passes defaultSettings
      (fun _ => .regular (List.replicate (5 * (1024 * 1024)) (0 : Nat))) "pic.png"
      (List.replicate (5 * (1024 * 1024)) (0 : Nat)) rfl).1 hlen hext⟩

/-- C5: a local file with suffix .png and content B that passes image
validation encodes to exactly the image/png data URI over the standard base64
encoding of B, and decoding that payload recovers B. -/
theorem claim_C5_png_data_uri_roundtrip (S : Settings) (fs : String → FsEntry)
    (p : String) (B : List Nat) (hurl : is_url p = false)
    (hfs : fs p = .regular B) (hB : ∀ b ∈ B, b < 256)
    (hsuf : pathSuffix p = ".png")
    (hval : validate_image_file S fs p = .ok ()) :
    encode_image_to_base64 S fs p =
      .ok ("data:image/png;base64," ++ String.mk (b64EncodeBytes B)) ∧
    b64DecodeChars (b64EncodeBytes B) = B := by
  have hm : get_mime_type ".png" false = "image/png" := by decide
  have hpre : ("data:" ++ "image/png" ++ ";base64," : String) = "data:image/png;base64," := by
    decide
  constructor
  · simp only [encode_image_to_base64, hurl, Bool.false_eq_true, if_false, hval, hfs,
      hsuf, hm, hpre]
  · exact b64_decode_encode B hB

/-- C5 witness: the two-byte file [137, 80] named img.png. -/
theorem claim_C5_witness :
    validate_image_file defaultSettings (fun _ => .regular [137, 80]) "img.png" = .ok () ∧
    encode_image_to_base64 defaultSettings (fun _ => .regular [137, 80]) "img.png" =
      .ok ("data:image/png;base64," ++ String.mk (b64EncodeBytes [137, 80])) ∧
    b64DecodeChars (b64EncodeBytes [137, 80]) = [137, 80] := by
  have hval : validate_image_file defaultSettings (fun _ => .regular [137, 80]) "img.png" =
      .ok () :=
    validate_image_file_ok defaultSettings (fun _ => .regular [137, 80]) "img.png"
      [137, 80] rfl (by decide) (by decide)
  have h := claim_C5_png_data_uri_roundtrip defaultSettings (fun _ => .regular [137, 80])
    "img.png" [137, 80] (by decide) rfl (by decide) (by decide) hval
  exact ⟨hval, h.1, h.2⟩

/-- C6: get_file_info is a total function of its inputs (it always returns a
record, never raises); a URL whose HEAD probe fails at transport level, or is
answered with a non-2xx status, yields accessible = false with a populated
error field; an absent local path yields accessible = false with error "File
not found".  Probe failures are thereby absorbed into the record. -/
theorem claim_C6_get_file_info_absorbs (net : String → HttpOutcome)
    (fs : String → FsEntry) (src : String) :
    (∀ msg, is_url src = true → net src = .transportError msg →
      (get_file_info net fs src).accessible = false ∧
      (get_file_info net fs src).error = some msg) ∧
    (∀ status hdr, is_url src = true → net src = .response status hdr →
      statusSuccess status = false →
      (get_file_info net fs src).accessible = false ∧
      (get_file_info net fs src).error ≠ none) ∧
    (is_url src = false → fs src = .absent →
      (get_file_info net fs src).accessible = false ∧
      (get_file_info net fs src).error = some "File not found") := by
  refine ⟨?_, ?_, ?_⟩
  · intro msg hu hn
    simp [get_file_info, hu, hn]
  · intro status hdr hu hn hstat
    simp [get_file_info, hu, hn, hstat]
  · intro hu hfs
    simp [get_file_info, hu, hfs]

/-- C6 witness: an unreachable URL and a missing local file. -/
theorem claim_C6_witness :
    ((get_file_info (fun _ => .transportError "unreachable") (fun _ => .absent)
        "https://example.com/x").accessible = false ∧
      (get_file_info (fun _ => .transportError "unreachable") (fun _ => .absent)
        "https://example.com/x").error = some "unreachable") ∧
    ((get_file_info (fun _ => .transportError "unreachable") (fun _ => .absent)
        "no/such/file.png").accessible = false ∧
      (get_file_info (fun _ => .transportError "unreachable") (fun _ => .absent)
        "no/such/file.png").error = some "File not found") := by
  have h1 := (claim_C6_get_file_info_absorbs (fun _ => .transportError "unreachable")
    (fun _ => .absent) "https://example.com/x").1 "unreachable" (by decide) rfl
  have h2 := (claim_C6_get_file_info_absorbs (fun _ => .transportError "unreachable")
    (fun _ => .absent) "no/such/file.png").2.2 (by decide) rfl
  exact ⟨h1, h2⟩

/-- C7: with platform_mode AUTO and a non-empty API key, loading succeeds and
resolves the platform to ZHIPU exactly when the key contains "zhipu" or "glm"
case-insensitively (ZAI otherwise), and the final base_url is the fixed
endpoint of the resolved platform whatever base_url the user supplied
(resolution happens before the endpoint override); an absent key resolves to
ZHIPU in detect_platform (though the subsequent api-key check then aborts the
load). -/
theorem claim_C7_auto_platform_resolution (s : Settings)
    (hmode : s.platform_mode = .AUTO) :
    (∀ key, s.api_key = some key → key ≠ "" →
      ∃ r, post_init s = .ok r ∧
        r.platform_mode =
          (if containsInLower key "zhipu" || containsInLower key "glm"
            then .ZHIPU else .ZAI) ∧
        r.base_url =
          (if containsInLower key "zhipu" || containsInLower key "glm"
            then zhipuBaseUrl else zaiBaseUrl)) ∧
    detect_platform none = .ZHIPU := by
  refine ⟨?_, rfl⟩
  intro key hk hne
  have hfalsy : apiKeyFalsy s.api_key = false := by
    rw [hk]
    simpa [apiKeyFalsy] using hne
  have hdet : detect_platform s.api_key =
      (if containsInLower key "zhipu" || containsInLower key "glm"
        then PlatformMode.ZHIPU else PlatformMode.ZAI) := by
    rw [hk]
    unfold detect_platform
    rw [show apiKeyFalsy (some key) = false from by simpa [apiKeyFalsy] using hne]
    simp
  have hpost : post_init s = .ok { s with
      platform_mode := detect_platform s.api_key
      base_url :=
        if detect_platform s.api_key = .ZAI then zaiBaseUrl
        else if detect_platform s.api_key = .ZHIPU then zhipuBaseUrl
        else s.base_url
      fastmcp_settings :=
        [("log_level", s.log_level), ("timeout", toString s.timeout_seconds),
         ("max_concurrent_requests", toString s.rate_limit)] } := by
    simp [post_init, hmode, hfalsy]
  by_cases hc : (containsInLower key "zhipu" || containsInLower key "glm") = true
  · rw [hc, if_pos rfl] at hdet
    rw [hdet] at hpost
    simp only [reduceCtorEq, if_false, if_pos rfl] at hpost
    exact ⟨_, hpost, by simp [hc], by simp [hc]⟩
  · rw [if_neg hc] at hdet
    rw [hdet] at hpost
    simp only [if_pos rfl] at hpost
    exact ⟨_, hpost, by simp [hc], by simp [hc]⟩

/-- C7 witness: the AUTO-mode defaults with key "my-glm-test" resolve to
ZHIPU and the ZHIPU endpoint. -/
theorem claim_C7_witness :
    ({ defaultSettings with api_key := some "my-glm-test" } : Settings).platform_mode =
      PlatformMode.AUTO ∧
    ∃ r, post_init { defaultSettings with api_key := some "my-glm-test" } = .ok r ∧
      r.platform_mode = PlatformMode.ZHIPU ∧ r.base_url = zhipuBaseUrl := by
  have h := (claim_C7_auto_platform_resolution
    { defaultSettings with api_key := some "my-glm-test" } rfl).1
    "my-glm-test" rfl (by decide)
  obtain ⟨r, hr, hpm, hurl⟩ := h
  refine ⟨rfl, r, hr, ?_, ?_⟩
  · rw [hpm]
    decide
  · rw [hurl]
    decide

/-- C8 counterexample: loading settings with no API key fails with the
built-in ValueError — not the typed ConfigurationError the claim names. -/
theorem claim_C8_counterexample :
    post_init defaultSettings =
      .error (.valueError "Z_AI_API_KEY environment variable is required") ∧
    (match post_init defaultSettings with
      | .error (.configurationError _) => true
      | _ => false) = false := by
  constructor <;> rfl

/-- C8 amended: loading settings with a falsy (absent or empty) API key fails
before any Settings value is produced, with the built-in ValueError (not the
typed ConfigurationError) whose message states that the Z_AI_API_KEY
environment variable is required. -/
theorem claim_C8_missing_key_value_error (s : Settings)
    (h : apiKeyFalsy s.api_key = true) :
    post_init s = .error (.valueError "Z_AI_API_KEY environment variable is required") := by
  simp [post_init, h]

/-- C8 witness: the empty-string key. -/
theorem claim_C8_witness :
    apiKeyFalsy ({ defaultSettings with api_key := some "" } : Settings).api_key = true ∧
    post_init { defaultSettings with api_key := some "" } =
      .error (.valueError "Z_AI_API_KEY environment variable is required") := by
  have h : apiKeyFalsy ({ defaultSettings with api_key := some "" } : Settings).api_key =
      true := by decide
  exact ⟨h, claim_C8_missing_key_value_error _ h⟩

/-- An extension outside the supported image set has no entry in the image
MIME table (the table keys are exactly that set). -/
theorem imageMime_lookup_none (e : String)
    (h : supported_image_formats.contains e = false) :
    imageMimeTypes.lookup e = none := by
  have hm : e ∉ supported_image_formats := by simpa using h
  simp only [supported_image_formats, List.mem_cons, List.not_mem_nil, or_false,
    not_or] at hm
  obtain ⟨h1, h2, h3⟩ := hm
  have b1 : (e == ".png") = false := by simpa using h1
  have b2 : (e == ".jpg") = false := by simpa using h2
  have b3 : (e == ".jpeg") = false := by simpa using h3
  simp [imageMimeTypes, List.lookup, b1, b2, b3]

/-- C9: for a local existing path whose raw (non-case-folded) suffix is not a
member of the lowercase video extension set, get_file_info resolves the
content type through the image table (is_video = false) — the membership test
is case-sensitive although validation case-folds — and yields image/png
whenever the case-folded suffix is not a supported image extension either,
as for movie.MP4. -/
theorem claim_C9_raw_suffix_video_flag (net : String → HttpOutcome)
    (fs : String → FsEntry) (p : String) (content : List Nat)
    (hurl : is_url p = false) (hfs : fs p = .regular content)
    (hraw : supported_video_formats.contains (pathSuffix p) = false) :
    (get_file_info net fs p).content_type =
      some (get_mime_type (pathSuffix p) false) ∧
    (supported_image_formats.contains (strToLower (pathSuffix p)) = false →
      (get_file_info net fs p).content_type = some "image/png") := by
  have hct : (get_file_info net fs p).content_type =
      some (get_mime_type (pathSuffix p) false) := by
    have hraw2 : pathSuffix p ∉ supported_video_formats := by simpa using hraw
    simp [get_file_info, hurl, hfs, hraw, hraw2]
  refine ⟨hct, fun himg => ?_⟩
  rw [hct]
  simp [get_mime_type, imageMime_lookup_none _ himg]

/-- C9 witness: movie.MP4 — .MP4 is not in the lowercase video set, and .mp4
is not an image extension, so the reported content type is image/png. -/
theorem claim_C9_witness :
    supported_video_formats.contains (pathSuffix "movie.MP4") = false ∧
    (get_file_info (fun _ => .transportError "x") (fun _ => .regular [1, 2, 3])
        "movie.MP4").content_type = some "image/png" := by
  have hraw : supported_video_formats.contains (pathSuffix "movie.MP4") = false := by
    decide
  exact ⟨hraw,
    (claim_C9_raw_suffix_video_flag (fun _ => .transportError "x")
      (fun _ => .regular [1, 2, 3]) "movie.MP4" [1, 2, 3] (by decide) rfl hraw).2
      (by decide)⟩

end GlmVision
